import Mathlib

/-!
Verification of `komugi-1226/profile-bot` (`src/database.py`, `src/main.py`).

The bot persists its data in a relational store; here each table is embedded
as a list of rows (association lists keyed by the primary key), and each
`async def` of `database.py` becomes a pure state-passing function.  Machine
time is modelled as integer seconds; SQL `CURRENT_TIMESTAMP` / `datetime.now`
become an explicit `now : Int` argument.  Fallible operations return `Except`.
-/

namespace ProfileBot

/-! ## Generic association-list helpers (primary-key tables) -/

/-- Value stored under an integer primary key, `SELECT .. WHERE key = $1`
(first matching row, as `fetchrow`/`fetchval` return). -/
def lookupKey (st : List (Int × α)) (k : Int) : Option α :=
  match st with
  | [] => none
  | (u, v) :: rest => if u == k then some v else lookupKey rest k

/-! ## `settings` table (`init_db`, `is_scan_completed`, `mark_scan_as_completed`) -/

/-- Model of `SELECT value FROM settings WHERE key = $1`. -/
def lookupSetting (st : List (String × String)) (k : String) : Option String :=
  match st with
  | [] => none
  | (u, v) :: rest => if u == k then some v else lookupSetting rest k

/-- The row-seeding step of `init_db` (database.py:69-72):
`INSERT INTO settings (key, value) VALUES ('scan_completed', 'false') ON CONFLICT (key) DO NOTHING`.
The `CREATE TABLE IF NOT EXISTS` statements of `init_db` touch no row data and
are not reflected in the row-level state. -/
def init_db_seed (st : List (String × String)) : List (String × String) :=
  if (lookupSetting st "scan_completed").isSome then st
  else st ++ [("scan_completed", "false")]

/-- Model of `is_scan_completed` (database.py:75-79): fetch the row for key
`scan_completed`; the Python expression `record and record['value'] == 'true'`
is truthy exactly when a row exists and its value is the string `true`. -/
def is_scan_completed (st : List (String × String)) : Bool :=
  match lookupSetting st "scan_completed" with
  | some v => v == "true"
  | none => false

/-- Model of `mark_scan_as_completed` (database.py:81-84):
`UPDATE settings SET value = 'true' WHERE key = 'scan_completed'` — rewrites
matching rows in place and inserts nothing. -/
def mark_scan_as_completed (st : List (String × String)) : List (String × String) :=
  st.map (fun kv => if kv.1 == "scan_completed" then (kv.1, "true") else kv)

/-! ## `users` table (`record_bump`, `get_user_count`) -/

/-- The upsert of `record_bump` (database.py:89-92):
`INSERT INTO users (user_id, bump_count) VALUES ($1, 1) ON CONFLICT (user_id)
DO UPDATE SET bump_count = users.bump_count + 1`. -/
def bumpUpsert (st : List (Int × Int)) (uid : Int) : List (Int × Int) :=
  match st with
  | [] => [(uid, 1)]
  | (u, c) :: rest =>
      if u == uid then (u, c + 1) :: rest else (u, c) :: bumpUpsert rest uid

/-- Model of `record_bump` (database.py:86-94): run the upsert, then
`SELECT bump_count FROM users WHERE user_id = $1` and return that value
(`fetchval` yields `none` on a missing row) together with the new table. -/
def record_bump (st : List (Int × Int)) (uid : Int) :
    Option Int × List (Int × Int) :=
  let st1 := bumpUpsert st uid
  (lookupKey st1 uid, st1)

/-- Model of `get_user_count` (database.py:104-108): `fetchval` then `count or 0`. -/
def get_user_count (st : List (Int × Int)) (uid : Int) : Int :=
  (lookupKey st uid).getD 0

/-- Runs `n` consecutive `record_bump` calls for the same user. -/
def bumpN (n : Nat) (st : List (Int × Int)) (uid : Int) : List (Int × Int) :=
  match n with
  | 0 => st
  | n + 1 => (record_bump (bumpN n st uid) uid).2

/-! ## `reminders` table (`set_reminder`, `get_reminder`) -/

/-- A row of `reminders`: `id SERIAL PRIMARY KEY, channel_id BIGINT NOT NULL,
remind_at TIMESTAMP NOT NULL, status TEXT NOT NULL DEFAULT 'waiting'`. -/
structure ReminderRow where
  id : Nat
  channel_id : Int
  remind_at : Int
  status : String
  deriving DecidableEq, Repr

/-- The `reminders` rows together with the `SERIAL` sequence counter. -/
structure ReminderState where
  rows : List ReminderRow
  nextId : Nat
  deriving DecidableEq, Repr

/-- Model of `set_reminder` (database.py:110-114): `DELETE FROM reminders`, then
`INSERT INTO reminders (channel_id, remind_at) VALUES ($1, $2)`; `id` comes
from the sequence and `status` takes its column default `'waiting'`. -/
def set_reminder (st : ReminderState) (channel_id remind_time : Int) :
    ReminderState :=
  { rows := [⟨st.nextId, channel_id, remind_time, "waiting"⟩]
    nextId := st.nextId + 1 }

/-- Insertion sort of the rows by `remind_at`, the `ORDER BY remind_at`. -/
def insertByRemindAt (r : ReminderRow) : List ReminderRow → List ReminderRow
  | [] => [r]
  | s :: rest =>
      if r.remind_at ≤ s.remind_at then r :: s :: rest
      else s :: insertByRemindAt r rest

/-- Rows sorted by `remind_at` ascending. -/
def sortByRemindAt : List ReminderRow → List ReminderRow
  | [] => []
  | r :: rest => insertByRemindAt r (sortByRemindAt rest)

/-- Model of `get_reminder` (database.py:116-122):
`SELECT channel_id, remind_at, status FROM reminders ORDER BY remind_at LIMIT 1`,
returning `none` when the table is empty. -/
def get_reminder (st : ReminderState) : Option (Int × Int × String) :=
  (sortByRemindAt st.rows).head?.map (fun r => (r.channel_id, r.remind_at, r.status))

/-! ## `introductions` table rows (`save_intro`, `get_intro_ids`) -/

/-- A row of `introductions`: `user_id BIGINT PRIMARY KEY, channel_id BIGINT
NOT NULL, message_id BIGINT NOT NULL, created_at TIMESTAMP`. -/
structure IntroRow where
  user_id : Int
  channel_id : Int
  message_id : Int
  created_at : Int
  deriving DecidableEq, Repr

/-- Model of `SELECT .. FROM introductions WHERE user_id = $1` (the `fetchrow`). -/
def lookupIntro (st : List IntroRow) (uid : Int) : Option IntroRow :=
  match st with
  | [] => none
  | r :: rest => if r.user_id == uid then some r else lookupIntro rest uid

/-- The upsert of `save_intro` (database.py:214-221):
`INSERT INTO introductions (user_id, channel_id, message_id, created_at)
VALUES ($1, $2, $3, CURRENT_TIMESTAMP) ON CONFLICT (user_id) DO UPDATE SET
channel_id = EXCLUDED.channel_id, message_id = EXCLUDED.message_id,
created_at = EXCLUDED.created_at`.  The preceding existence `fetchrow` of
`save_intro` only chooses a log line and does not affect the table. -/
def save_intro (st : List IntroRow) (uid cid mid now : Int) : List IntroRow :=
  match st with
  | [] => [⟨uid, cid, mid, now⟩]
  | r :: rest =>
      if r.user_id == uid then ⟨uid, cid, mid, now⟩ :: rest
      else r :: save_intro rest uid cid mid now

/-- Model of `get_intro_ids` (database.py:228-243): fetch the row for the user and
project `channel_id, message_id`. -/
def get_intro_ids (st : List IntroRow) (uid : Int) : Option (Int × Int) :=
  (lookupIntro st uid).map (fun r => (r.channel_id, r.message_id))

/-- Number of `introductions` rows carrying a given `user_id`. -/
def introRowCount (st : List IntroRow) (uid : Int) : Nat :=
  (st.filter (fun r => r.user_id == uid)).length

/-- The `PRIMARY KEY (user_id)` table invariant: no two rows share a user id. -/
def introKeysNodup (st : List IntroRow) : Prop :=
  (st.map (fun r => r.user_id)).Nodup

/-! ## `introductions` schema state (`init_intro_bot_db`, database.py:142-198)

The initializer manipulates the catalog (table existence, column list, index),
so its state is the schema itself: the ordered column list of `introductions`
when the table exists, and whether `idx_introductions_user_id` exists. -/

/-- Catalog state for the `introductions` table. -/
structure IntroSchema where
  /-- Holds `none` when the table does not exist, otherwise its column names. -/
  table : Option (List String)
  /-- Whether `idx_introductions_user_id` exists. -/
  hasIndex : Bool
  deriving DecidableEq, Repr

/-- Column list of the current layout (database.py:166-173). -/
def introCurrentCols : List String :=
  ["user_id", "channel_id", "message_id", "created_at"]

/-- Column list of the old layout, lacking `created_at`. -/
def introOldCols : List String :=
  ["user_id", "channel_id", "message_id"]

/-- Model of `CREATE TABLE IF NOT EXISTS introductions (...)`: creates the table with
the current layout when absent and does nothing otherwise. -/
def createIntroTableIfAbsent (s : IntroSchema) : IntroSchema :=
  match s.table with
  | none => { s with table := some introCurrentCols }
  | some _ => s

/-- The catalog query of database.py:176-183: does
`information_schema.columns` list a `created_at` column for `introductions`? -/
def introCreatedAtExists (s : IntroSchema) : Bool :=
  match s.table with
  | some cols => cols.contains "created_at"
  | none => false

/-- Model of `ALTER TABLE introductions ADD COLUMN created_at ...`: appends the column;
PostgreSQL raises a duplicate-column error when it is already present and an
undefined-table error when the table is missing. -/
def alterAddCreatedAt (s : IntroSchema) : Except String IntroSchema :=
  match s.table with
  | none => .error "relation introductions does not exist"
  | some cols =>
      if cols.contains "created_at" then
        .error "column created_at of relation introductions already exists"
      else .ok { s with table := some (cols ++ ["created_at"]) }

/-- Model of `CREATE INDEX IF NOT EXISTS idx_introductions_user_id ...`. -/
def createIntroIndexIfAbsent (s : IntroSchema) : IntroSchema :=
  { s with hasIndex := true }

/-- Model of `init_intro_bot_db` (database.py:142-198): create the table if absent,
check the catalog for `created_at`, add the column only when it is missing,
then ensure the user-id index. -/
def init_intro_bot_db (s : IntroSchema) : Except String IntroSchema :=
  let s1 := createIntroTableIfAbsent s
  if introCreatedAtExists s1 then .ok (createIntroIndexIfAbsent s1)
  else do
    let s2 ← alterAddCreatedAt s1
    .ok (createIntroIndexIfAbsent s2)

/-! ## `report_cooldowns` table (`check_cooldown`, database.py:314-330) -/

/-- Model of `INSERT INTO report_cooldowns (user_id, last_report_at) VALUES ($1, $2)
ON CONFLICT (user_id) DO UPDATE SET last_report_at = $2` (database.py:326-329). -/
def cooldownUpsert (st : List (Int × Int)) (uid now : Int) : List (Int × Int) :=
  match st with
  | [] => [(uid, now)]
  | (u, t) :: rest =>
      if u == uid then (u, now) :: rest else (u, t) :: cooldownUpsert rest uid now

/-- Model of `check_cooldown`: read the user's `last_report_at`; if a row exists and
`now - last < cooldown_seconds`, return the remaining seconds with the table
untouched; otherwise upsert `now` as the new `last_report_at` and return 0.
Timestamps are integer seconds; the returned value is the first component. -/
def check_cooldown (st : List (Int × Int)) (uid : Int)
    (cooldown_seconds : Int) (now : Int) : Int × List (Int × Int) :=
  match lookupKey st uid with
  | some last =>
      if now - last < cooldown_seconds then (cooldown_seconds - (now - last), st)
      else (0, cooldownUpsert st uid now)
  | none => (0, cooldownUpsert st uid now)

/-! ## `reports` table (`get_report_stats`, database.py:376-388) -/

/-- A row of `reports`; only the columns `get_report_stats` touches are kept
(`report_id` identifies the row, `status` is grouped on; the other columns of
the table play no part in the aggregation). -/
structure ReportRow where
  report_id : Nat
  status : String
  deriving DecidableEq, Repr

/-- Model of `get_report_stats`: `SELECT status, COUNT(*) FROM reports GROUP BY status`
followed by the dict comprehension turning the rows into a status-to-count
mapping; one entry per status value present in the table. -/
def get_report_stats (reports : List ReportRow) : List (String × Nat) :=
  ((reports.map (fun r => r.status)).dedup).map
    (fun s => (s, (reports.filter (fun r => r.status == s)).length))

/-! ## Connection pool (`get_pool`, database.py:11-31)

`asyncpg.create_pool` is modelled as allocating a fresh pool object carrying
the configuration passed at the call site; pool identity is a `Nat` so that
distinct creations are distinguishable. -/

/-- An `asyncpg` pool object as `get_pool` configures it. -/
structure PoolObj where
  id : Nat
  closed : Bool
  min_size : Nat
  max_size : Nat
  command_timeout : Nat
  statement_cache_size : Nat
  deriving DecidableEq, Repr

/-- The module-level mutable context of database.py: `DATABASE_URL` truthiness
and the global `_pool`. -/
structure PoolGlobal where
  dbUrlSet : Bool
  pool : Option PoolObj
  deriving DecidableEq, Repr

/-- Model of `_pool is None or _pool._closed`, the guard of database.py:17. -/
def poolMissingOrClosed (g : PoolGlobal) : Bool :=
  match g.pool with
  | none => true
  | some p => p.closed

/-- The pool object `asyncpg.create_pool(DATABASE_URL, min_size=1, max_size=10,
command_timeout=30, statement_cache_size=0)` returns (database.py:23-29);
`fresh` is the identity of the newly allocated object. -/
def newPool (fresh : Nat) : PoolObj :=
  { id := fresh, closed := false, min_size := 1, max_size := 10
    command_timeout := 30, statement_cache_size := 0 }

/-- Model of `get_pool` (database.py:11-31): when `_pool` is absent or closed, raise
`ValueError` if `DATABASE_URL` is unset, otherwise create and store a fresh
pool; in all non-raising cases return the global `_pool`. -/
def get_pool (g : PoolGlobal) (fresh : Nat) :
    Except String (PoolGlobal × PoolObj) :=
  if poolMissingOrClosed g then
    if !g.dbUrlSet then
      .error "DATABASE_URL environment variable is not set."
    else
      let p := newPool fresh
      .ok ({ g with pool := some p }, p)
  else
    match g.pool with
    | some p => .ok (g, p)
    | none => .error "unreachable: guard ensures the pool exists"

/-! ## Interleaving of two `get_pool` calls (cooperative concurrency)

`get_pool` suspends exactly once, at `await asyncpg.create_pool(...)`
(database.py:23).  Each in-flight call is a task whose program counter is:
before the guard, suspended inside `create_pool`, or returned.  From the
assignment `_pool = await ...` to `return _pool` there is no further await, so
creation-completion, the store to the global, and the return are one atomic
step.  A scheduler runs the two tasks step by step; `createdCount` counts the
pool objects ever allocated and doubles as the fresh identity supply. -/

/-- Program counter of one in-flight `get_pool` call. -/
inductive PoolTask where
  /-- About to evaluate the guard `_pool is None or _pool._closed`. -/
  | start : PoolTask
  /-- Suspended at `await asyncpg.create_pool(...)`. -/
  | creating : PoolTask
  /-- Returned with the given pool object. -/
  | done : PoolObj → PoolTask
  deriving DecidableEq, Repr

/-- Shared state of the interleaving: the module globals plus the allocation
counter. `DATABASE_URL` is taken as set (the raising path is C8's concern). -/
structure SchedState where
  pool : Option PoolObj
  createdCount : Nat
  taskA : PoolTask
  taskB : PoolTask
  deriving DecidableEq, Repr

/-- One step of one `get_pool` task against the shared globals.  At `start`,
an open stored pool is returned at once (no suspension); otherwise the task
suspends into `create_pool`.  At `creating`, the task allocates a fresh pool,
stores it in the global, and returns it. A `done` task does not move. -/
def stepPoolTask (pool : Option PoolObj) (created : Nat) (t : PoolTask) :
    Option PoolObj × Nat × PoolTask :=
  match t with
  | .start =>
      match pool with
      | some p => if p.closed then (pool, created, .creating) else (pool, created, .done p)
      | none => (pool, created, .creating)
  | .creating =>
      let p := newPool created
      (some p, created + 1, .done p)
  | .done p => (pool, created, .done p)

/-- Run a schedule: `true` steps task A, `false` steps task B. -/
def runSched (s : SchedState) : List Bool → SchedState
  | [] => s
  | c :: rest =>
      if c then
        let (pool, created, tA) := stepPoolTask s.pool s.createdCount s.taskA
        runSched { s with pool := pool, createdCount := created, taskA := tA } rest
      else
        let (pool, created, tB) := stepPoolTask s.pool s.createdCount s.taskB
        runSched { s with pool := pool, createdCount := created, taskB := tB } rest

/-- Initial state: no pool yet, both calls about to run. -/
def initSched : SchedState :=
  { pool := none, createdCount := 0, taskA := .start, taskB := .start }

/-! ## `main.py` event handler `on_message` (main.py:70-79)

The handler guards on the introduction channel and non-bot author, then inside
`try` builds the message link and calls `db.save_intro_link(...)`.  Python
resolves the attribute `save_intro_link` on the `database` module before any
database work; `databaseModuleNames` lists the names database.py actually
binds (its `def` statements), and the lookup of an unbound name raises
`AttributeError`, which the `except` arm catches, leaving the table as it
was.  The handler is parametrised by the write that a resolved attribute
would have performed, so the result holds whatever that write might be. -/

/-- A Discord message as `on_message` inspects it. -/
structure Message where
  channel_id : Int
  guild_id : Int
  message_id : Int
  author_id : Int
  author_is_bot : Bool
  deriving DecidableEq, Repr

/-- Model of `INTRODUCTION_CHANNEL_ID` (main.py:16). -/
def INTRODUCTION_CHANNEL_ID : Int := 1300659373227638794

/-- The top-level names `def`-bound by database.py, in source order. -/
def databaseModuleNames : List String :=
  ["get_pool", "close_pool", "init_db", "is_scan_completed",
   "mark_scan_as_completed", "record_bump", "get_top_users", "get_user_count",
   "set_reminder", "get_reminder", "update_reminder_status", "clear_reminder",
   "get_total_bumps", "init_intro_bot_db", "save_intro", "get_intro_ids",
   "get_intro_count", "list_recent_intros", "init_shugoshin_db", "setup_guild",
   "get_guild_settings", "check_cooldown", "create_report",
   "update_report_message_id", "update_report_status", "get_report",
   "list_reports", "get_report_stats"]

/-- Model of `hasattr(database, name)`: whether the attribute access succeeds. -/
def dbHasAttr (name : String) : Bool := databaseModuleNames.contains name

/-- Model of `on_message` restricted to its effect on the `introductions` table.
`write` stands for whatever state change the function bound to
`save_intro_link` would perform if the attribute resolved; when it does not
resolve, the `AttributeError` is caught by main.py:78-79 and the table is
unchanged. Messages outside the introduction channel and bot messages are
ignored by the guard (main.py:73). -/
def on_message (st : List IntroRow) (msg : Message)
    (write : List IntroRow → List IntroRow) : List IntroRow :=
  if msg.channel_id == INTRODUCTION_CHANNEL_ID && !msg.author_is_bot then
    if dbHasAttr "save_intro_link" then write st else st
  else st

/-! ## Helper lemmas -/

/-- After the bump upsert, the user's count is the previous count (0 when no
row existed) plus one. -/
theorem lookupKey_bumpUpsert (st : List (Int × Int)) (uid : Int) :
    lookupKey (bumpUpsert st uid) uid = some ((lookupKey st uid).getD 0 + 1) := by
  induction st with
  | nil => simp [bumpUpsert, lookupKey]
  | cons kv rest ih =>
      obtain ⟨u, c⟩ := kv
      by_cases h : u == uid
      · simp [bumpUpsert, lookupKey, h]
      · simp only [bumpUpsert, lookupKey, h, if_neg, Bool.false_eq_true,
          ite_false]
        exact ih

/-- Iterated bumps starting from no row give count `n` (`none` for `n = 0`). -/
theorem lookupKey_bumpN (st : List (Int × Int)) (uid : Int)
    (h : lookupKey st uid = none) :
    ∀ n : Nat, lookupKey (bumpN n st uid) uid =
      if n = 0 then none else some (n : Int) := by
  intro n
  induction n with
  | zero => simpa [bumpN] using h
  | succ n ih =>
      have : lookupKey (bumpN (n + 1) st uid) uid =
          some ((lookupKey (bumpN n st uid) uid).getD 0 + 1) := by
        simpa [bumpN, record_bump] using lookupKey_bumpUpsert (bumpN n st uid) uid
      rw [this, ih]
      cases n with
      | zero => simp
      | succ m =>
          simp only [Nat.succ_ne_zero, ite_false, Option.getD_some,
            Option.some.injEq]
          push_cast
          ring

/-- An `UPDATE` matching no rows leaves the settings table unchanged. -/
theorem mark_scan_of_no_key (st : List (String × String))
    (h : lookupSetting st "scan_completed" = none) :
    mark_scan_as_completed st = st := by
  induction st with
  | nil => rfl
  | cons kv rest ih =>
      by_cases hk : kv.1 == "scan_completed"
      · simp [lookupSetting, hk] at h
      · simp only [lookupSetting, hk, Bool.false_eq_true, ite_false] at h
        unfold mark_scan_as_completed at ih ⊢
        rw [List.map_cons, if_neg hk, ih h]

/-- Lookup over an append skips a left part that lacks the key. -/
theorem lookupSetting_append (a b : List (String × String)) (k : String)
    (h : lookupSetting a k = none) :
    lookupSetting (a ++ b) k = lookupSetting b k := by
  induction a with
  | nil => simp
  | cons kv rest ih =>
      by_cases hk : kv.1 == k
      · simp [lookupSetting, hk] at h
      · simp only [lookupSetting, hk, Bool.false_eq_true, ite_false] at h
        simpa [lookupSetting, hk] using ih h

/-- The cooldown upsert stores `now` under the user's key. -/
theorem lookupKey_cooldownUpsert (st : List (Int × Int)) (uid now : Int) :
    lookupKey (cooldownUpsert st uid now) uid = some now := by
  induction st with
  | nil => simp [cooldownUpsert, lookupKey]
  | cons kv rest ih =>
      obtain ⟨u, t⟩ := kv
      by_cases h : u == uid
      · simp [cooldownUpsert, lookupKey, h]
      · simpa [cooldownUpsert, lookupKey, h] using ih

/-- The intro upsert leaves the saved row under the user's key. -/
theorem lookupIntro_save_intro (st : List IntroRow) (uid cid mid now : Int) :
    lookupIntro (save_intro st uid cid mid now) uid = some ⟨uid, cid, mid, now⟩ := by
  induction st with
  | nil => simp [save_intro, lookupIntro]
  | cons r rest ih =>
      by_cases h : r.user_id == uid
      · simp [save_intro, lookupIntro, h]
      · simpa [save_intro, lookupIntro, h] using ih

/-- The intro upsert does not touch rows of other users. -/
theorem lookupIntro_save_intro_frame (st : List IntroRow)
    (uid cid mid now uid2 : Int) (hne : uid2 ≠ uid) :
    lookupIntro (save_intro st uid cid mid now) uid2 = lookupIntro st uid2 := by
  have hne2 : ¬ uid = uid2 := fun hc => hne hc.symm
  induction st with
  | nil => simp [save_intro, lookupIntro, hne2]
  | cons r rest ih =>
      by_cases h : r.user_id == uid
      · have hr : r.user_id = uid := by simpa using h
        simp [save_intro, lookupIntro, h, hr, hne2]
      · by_cases h2 : r.user_id == uid2
        · simp [save_intro, lookupIntro, h, h2]
        · simpa [save_intro, lookupIntro, h, h2] using ih

/-- Effect of the intro upsert on the key column: unchanged when the user
already has a row, extended by the user's id otherwise. -/
theorem introKeys_save_intro (st : List IntroRow) (uid cid mid now : Int) :
    (save_intro st uid cid mid now).map (fun r => r.user_id) =
      if uid ∈ st.map (fun r => r.user_id) then st.map (fun r => r.user_id)
      else st.map (fun r => r.user_id) ++ [uid] := by
  induction st with
  | nil => simp [save_intro]
  | cons r rest ih =>
      by_cases h : r.user_id == uid
      · have hr : r.user_id = uid := by simpa using h
        simp [save_intro, h, hr]
      · have hr : ¬ r.user_id = uid := by simpa using h
        have hru : ¬ uid = r.user_id := fun hc => hr hc.symm
        by_cases hm : uid ∈ rest.map (fun r => r.user_id)
        · simp [save_intro, h, hm, ih, hru]
        · simp [save_intro, h, hm, ih, hru]

/-- A user with no row contributes no rows to the filter. -/
theorem introRowCount_eq_zero (st : List IntroRow) (uid : Int)
    (h : uid ∉ st.map (fun r => r.user_id)) : introRowCount st uid = 0 := by
  induction st with
  | nil => rfl
  | cons r rest ih =>
      simp only [List.map_cons, List.mem_cons, not_or] at h
      have hb : ¬ r.user_id == uid := by simpa using fun hc => h.1 hc.symm
      simpa [introRowCount, List.filter_cons, hb] using ih h.2

/-- On a key-unique table, the intro upsert leaves exactly one row for the
saved user. -/
theorem introRowCount_save_intro (st : List IntroRow) (uid cid mid now : Int)
    (h : introKeysNodup st) :
    introRowCount (save_intro st uid cid mid now) uid = 1 := by
  induction st with
  | nil => simp [save_intro, introRowCount]
  | cons r rest ih =>
      simp only [introKeysNodup, List.map_cons, List.nodup_cons] at h
      by_cases hb : r.user_id == uid
      · have hr : r.user_id = uid := by simpa using hb
        have hz : introRowCount rest uid = 0 :=
          introRowCount_eq_zero rest uid (by rw [← hr]; exact h.1)
        simp only [introRowCount] at hz ⊢
        simp [save_intro, hb, List.filter_cons, hz]
      · have := ih h.2
        simp only [introRowCount] at this ⊢
        simp [save_intro, hb, List.filter_cons, this]

/-- A status occurs among the rows exactly when its filter is nonempty. -/
theorem status_mem_iff (reports : List ReportRow) (s : String) :
    s ∈ reports.map (fun r => r.status) ↔
      0 < (reports.filter (fun r => r.status == s)).length := by
  induction reports with
  | nil => simp
  | cons r rest ih =>
      by_cases h : r.status = s
      · simp [List.filter_cons, h]
      · have hb : ¬ r.status == s := by simpa using h
        have hs : ¬ s = r.status := fun hc => h hc.symm
        simp [List.filter_cons, hb, hs, ih]

/-! ## Claim theorems -/

/-- C2: for every user and cooldown window, `check_cooldown` with a stored
last-report timestamp younger than the window returns the positive remaining
wait (window minus elapsed) and leaves the table untouched; with an old or
missing record it upserts the current time under the user's key and
returns 0. -/
theorem check_cooldown_spec (st : List (Int × Int)) (uid w now : Int) :
    (∀ last, lookupKey st uid = some last → now - last < w →
      check_cooldown st uid w now = (w - (now - last), st) ∧
      0 < w - (now - last)) ∧
    (∀ last, lookupKey st uid = some last → w ≤ now - last →
      check_cooldown st uid w now = (0, cooldownUpsert st uid now)) ∧
    (lookupKey st uid = none →
      check_cooldown st uid w now = (0, cooldownUpsert st uid now)) ∧
    lookupKey (cooldownUpsert st uid now) uid = some now := by
  refine ⟨?_, ?_, ?_, lookupKey_cooldownUpsert st uid now⟩
  · intro last hl hlt
    rw [check_cooldown, hl]
    dsimp only
    rw [if_pos hlt]
    exact ⟨rfl, by omega⟩
  · intro last hl hge
    rw [check_cooldown, hl]
    dsimp only
    rw [if_neg (by omega)]
  · intro hl
    rw [check_cooldown, hl]

/-- Witness for C2 at concrete inputs: user 1 last reported at time 100;
at time 130 with a 60-second window the call returns 30 and keeps the row,
while a user with no row gets time 130 stored and 0 returned. -/
theorem check_cooldown_spec_witness :
    (check_cooldown [(1, 100)] 1 60 130 = (30, [(1, 100)]) ∧
      (0 : Int) < 30) ∧
    check_cooldown [] 1 60 130 = (0, [(1, 130)]) ∧
    lookupKey (cooldownUpsert [] 1 130) 1 = some 130 := by
  refine ⟨?_, ?_, (check_cooldown_spec [] 1 60 130).2.2.2⟩
  · have h := (check_cooldown_spec [(1, 100)] 1 60 130).1 100 rfl (by norm_num)
    exact ⟨by rw [h.1]; norm_num, by norm_num⟩
  · have h := (check_cooldown_spec [] 1 60 130).2.2.1 rfl
    rw [h]; rfl

/-- C3: `record_bump` inserts count 1 for a user with no row, increments an
existing row by exactly 1, returns the post-increment total, and `n`
consecutive calls starting from no row leave the count at `n`. -/
theorem record_bump_spec (st : List (Int × Int)) (uid : Int) :
    (lookupKey st uid = none →
      (record_bump st uid).1 = some 1 ∧
      lookupKey (record_bump st uid).2 uid = some 1) ∧
    (∀ c, lookupKey st uid = some c →
      (record_bump st uid).1 = some (c + 1) ∧
      lookupKey (record_bump st uid).2 uid = some (c + 1)) ∧
    (∀ n : Nat, lookupKey st uid = none →
      get_user_count (bumpN n st uid) uid = (n : Int)) := by
  refine ⟨?_, ?_, ?_⟩
  · intro h
    have hb : lookupKey (bumpUpsert st uid) uid = some 1 := by
      simpa [h] using lookupKey_bumpUpsert st uid
    exact ⟨hb, hb⟩
  · intro c h
    have hb : lookupKey (bumpUpsert st uid) uid = some (c + 1) := by
      simpa [h] using lookupKey_bumpUpsert st uid
    exact ⟨hb, hb⟩
  · intro n h
    rw [get_user_count, lookupKey_bumpN st uid h n]
    cases n with
    | zero => simp
    | succ m => simp

/-- Witness for C3 at concrete inputs: user 7 starting with no row gets
count 1; with count 2 gets count 3; three calls from scratch give total 3. -/
theorem record_bump_spec_witness :
    ((record_bump [] 7).1 = some 1 ∧
      lookupKey (record_bump [] 7).2 7 = some 1) ∧
    ((record_bump [(7, 2)] 7).1 = some 3 ∧
      lookupKey (record_bump [(7, 2)] 7).2 7 = some 3) ∧
    get_user_count (bumpN 3 [] 7) 7 = (3 : Int) := by
  refine ⟨(record_bump_spec [] 7).1 rfl, ?_, (record_bump_spec [] 7).2.2 3 rfl⟩
  have h := (record_bump_spec [(7, 2)] 7).2.1 2 rfl
  norm_num at h
  exact h

/-- C4: `set_reminder` leaves exactly one reminder row whatever was stored
before, and `get_reminder` then returns exactly the channel id and time of
that most recent call (with the default status `waiting`). -/
theorem set_reminder_single_slot (st : ReminderState) (cid t : Int) :
    (set_reminder st cid t).rows.length = 1 ∧
    get_reminder (set_reminder st cid t) = some (cid, t, "waiting") := by
  exact ⟨rfl, rfl⟩

/-- C5: on a key-unique table, `save_intro` leaves exactly one row for the
user, holding exactly the channel id, message id, and timestamp of the most
recent save; other users' rows are untouched and key uniqueness persists. -/
theorem save_intro_spec (st : List IntroRow) (uid cid mid now : Int)
    (h : introKeysNodup st) :
    lookupIntro (save_intro st uid cid mid now) uid =
      some ⟨uid, cid, mid, now⟩ ∧
    introRowCount (save_intro st uid cid mid now) uid = 1 ∧
    (∀ uid2, uid2 ≠ uid →
      lookupIntro (save_intro st uid cid mid now) uid2 = lookupIntro st uid2) ∧
    introKeysNodup (save_intro st uid cid mid now) := by
  refine ⟨lookupIntro_save_intro st uid cid mid now,
    introRowCount_save_intro st uid cid mid now h,
    fun uid2 hne => lookupIntro_save_intro_frame st uid cid mid now uid2 hne,
    ?_⟩
  rw [introKeysNodup, introKeys_save_intro]
  by_cases hm : uid ∈ st.map (fun r => r.user_id)
  · simpa [hm] using h
  · simp only [hm, ite_false]
    rw [List.nodup_append]
    refine ⟨h, List.nodup_singleton uid, ?_⟩
    intro a ha hb2
    simp only [List.mem_singleton] at hb2
    subst hb2
    exact hm ha

/-- Witness for C5 at concrete inputs: user 1 with a stored row (10, 11, 5)
saved again with (20, 21, 6) ends with exactly that one row; user 2 is
unaffected. -/
theorem save_intro_spec_witness :
    lookupIntro (save_intro [⟨1, 10, 11, 5⟩] 1 20 21 6) 1 =
      some ⟨1, 20, 21, 6⟩ ∧
    introRowCount (save_intro [⟨1, 10, 11, 5⟩] 1 20 21 6) 1 = 1 ∧
    lookupIntro (save_intro [⟨1, 10, 11, 5⟩] 1 20 21 6) 2 =
      lookupIntro [⟨1, 10, 11, 5⟩] 2 ∧
    introKeysNodup (save_intro [⟨1, 10, 11, 5⟩] 1 20 21 6) := by
  have h := save_intro_spec [⟨1, 10, 11, 5⟩] 1 20 21 6 (by simp [introKeysNodup])
  exact ⟨h.1, h.2.1, h.2.2.1 2 (by norm_num), h.2.2.2⟩

/-- C10: without the `scan_completed` row, `mark_scan_as_completed` changes
nothing (its `UPDATE` matches no rows) and `is_scan_completed` stays false;
only after `init_db` has seeded the key does marking make it true. -/
theorem mark_scan_requires_seed (st : List (String × String))
    (h : lookupSetting st "scan_completed" = none) :
    mark_scan_as_completed st = st ∧
    is_scan_completed (mark_scan_as_completed st) = false ∧
    is_scan_completed (mark_scan_as_completed (init_db_seed st)) = true := by
  refine ⟨mark_scan_of_no_key st h, ?_, ?_⟩
  · rw [mark_scan_of_no_key st h, is_scan_completed, h]
  · have hseed : init_db_seed st = st ++ [("scan_completed", "false")] := by
      rw [init_db_seed, h]
      rfl
    have hmark : mark_scan_as_completed (st ++ [("scan_completed", "false")]) =
        st ++ [("scan_completed", "true")] := by
      rw [mark_scan_as_completed, List.map_append,
        ← mark_scan_as_completed.eq_def, mark_scan_of_no_key st h]
      rfl
    rw [hseed, hmark, is_scan_completed,
      lookupSetting_append st [("scan_completed", "true")] "scan_completed" h]
    rfl

/-- Witness for C10 at a concrete settings table holding only an unrelated
key: marking is a no-op and the flag reads false until `init_db` seeds it. -/
theorem mark_scan_requires_seed_witness :
    mark_scan_as_completed [("other", "x")] = [("other", "x")] ∧
    is_scan_completed (mark_scan_as_completed [("other", "x")]) = false ∧
    is_scan_completed (mark_scan_as_completed (init_db_seed [("other", "x")])) =
      true :=
  mark_scan_requires_seed [("other", "x")] rfl

/-- C6: run on no table, on the current layout, or on the old layout lacking
`created_at`, `init_intro_bot_db` succeeds, leaves the current layout with
the user-id index and no duplicated column, and a second run returns the
same state again without error. -/
theorem init_intro_bot_db_idempotent (s : IntroSchema)
    (h : s.table = none ∨ s.table = some introCurrentCols ∨
      s.table = some introOldCols) :
    init_intro_bot_db s = .ok ⟨some introCurrentCols, true⟩ ∧
    introCurrentCols.Nodup ∧
    init_intro_bot_db ⟨some introCurrentCols, true⟩ =
      .ok ⟨some introCurrentCols, true⟩ := by
  obtain ⟨t, b⟩ := s
  rcases h with h | h | h <;> simp only at h <;> subst h <;>
    exact ⟨rfl, by decide, rfl⟩

/-- Witness for C6 at the old layout without the index (the migration case). -/
theorem init_intro_bot_db_idempotent_witness :
    init_intro_bot_db ⟨some introOldCols, false⟩ =
      .ok ⟨some introCurrentCols, true⟩ ∧
    introCurrentCols.Nodup ∧
    init_intro_bot_db ⟨some introCurrentCols, true⟩ =
      .ok ⟨some introCurrentCols, true⟩ :=
  init_intro_bot_db_idempotent ⟨some introOldCols, false⟩ (Or.inr (Or.inr rfl))

/-- C7: `get_report_stats` maps each status to its row count, its keys are
unique, and a pair belongs to the result exactly when its count is the
number of rows with that status and that number is positive — statuses with
zero rows are absent. -/
theorem get_report_stats_spec (reports : List ReportRow) :
    ((get_report_stats reports).map Prod.fst).Nodup ∧
    ∀ s n, ((s, n) ∈ get_report_stats reports ↔
      (reports.filter (fun r => r.status == s)).length = n ∧ 0 < n) := by
  constructor
  · have hkeys : (get_report_stats reports).map Prod.fst =
        (reports.map (fun r => r.status)).dedup := by
      rw [get_report_stats, List.map_map]
      have hid : (Prod.fst ∘ fun s =>
          (s, (reports.filter (fun r => r.status == s)).length)) = id := rfl
      rw [hid, List.map_id]
    rw [hkeys]
    exact (reports.map (fun r => r.status)).nodup_dedup
  · intro s n
    rw [get_report_stats]
    constructor
    · intro hmem
      rw [List.mem_map] at hmem
      obtain ⟨a, ha, heq⟩ := hmem
      obtain ⟨rfl, rfl⟩ := Prod.mk.injEq .. ▸ heq
      rw [List.mem_dedup] at ha
      exact ⟨rfl, (status_mem_iff reports a).mp ha⟩
    · rintro ⟨rfl, hpos⟩
      rw [List.mem_map]
      exact ⟨s, List.mem_dedup.mpr ((status_mem_iff reports s).mpr hpos), rfl⟩

/-- C8: `get_pool` raises the configuration error exactly when no open pool
exists and `DATABASE_URL` is unset; otherwise it returns an open pool with
1..10 connections, 30-second command timeout, and statement caching disabled
— a fresh one when the stored pool is missing or closed, the stored pool
itself when it is open. -/
theorem get_pool_spec (g : PoolGlobal) (fresh : Nat) :
    (poolMissingOrClosed g = true → g.dbUrlSet = false →
      get_pool g fresh =
        .error "DATABASE_URL environment variable is not set.") ∧
    (poolMissingOrClosed g = true → g.dbUrlSet = true →
      get_pool g fresh = .ok ({ g with pool := some (newPool fresh) },
        newPool fresh) ∧
      (newPool fresh).closed = false ∧ (newPool fresh).min_size = 1 ∧
      (newPool fresh).max_size = 10 ∧ (newPool fresh).command_timeout = 30 ∧
      (newPool fresh).statement_cache_size = 0) ∧
    (∀ p, g.pool = some p → p.closed = false → get_pool g fresh = .ok (g, p)) := by
  refine ⟨?_, ?_, ?_⟩
  · intro hmc hurl
    rw [get_pool, if_pos hmc, if_pos (by rw [hurl]; rfl)]
  · intro hmc hurl
    refine ⟨?_, rfl, rfl, rfl, rfl, rfl⟩
    rw [get_pool, if_pos hmc, if_neg (by rw [hurl]; simp)]
  · intro p hp hopen
    have hmc : poolMissingOrClosed g = false := by
      rw [poolMissingOrClosed, hp]
      dsimp only
      exact hopen
    rw [get_pool, if_neg (by rw [hmc]; simp), hp]

/-- Witness for C8 at concrete globals: unset URL with no pool errors; set
URL with no pool creates the configured pool; an open stored pool is
returned unchanged. -/
theorem get_pool_spec_witness :
    get_pool ⟨false, none⟩ 0 =
      .error "DATABASE_URL environment variable is not set." ∧
    (get_pool ⟨true, none⟩ 0 =
      .ok (⟨true, some (newPool 0)⟩, newPool 0) ∧
      (newPool 0).closed = false ∧ (newPool 0).min_size = 1 ∧
      (newPool 0).max_size = 10 ∧ (newPool 0).command_timeout = 30 ∧
      (newPool 0).statement_cache_size = 0) ∧
    get_pool ⟨true, some (newPool 3)⟩ 7 =
      .ok (⟨true, some (newPool 3)⟩, newPool 3) :=
  ⟨(get_pool_spec ⟨false, none⟩ 0).1 rfl rfl,
    (get_pool_spec ⟨true, none⟩ 0).2.1 rfl rfl,
    (get_pool_spec ⟨true, some (newPool 3)⟩ 7).2.2 (newPool 3) rfl rfl⟩

/-- C9 counterexample evaluation: two `get_pool` calls that interleave at the
`create_pool` suspension point (schedule A, B, A, B from an empty global)
allocate two distinct pool objects and return different pools, violating the
claimed single-creation guarantee — database.py takes no lock around
creation. -/
theorem get_pool_race_two_pools :
    (runSched initSched [true, false, true, false]).createdCount = 2 ∧
    (runSched initSched [true, false, true, false]).taskA =
      .done (newPool 0) ∧
    (runSched initSched [true, false, true, false]).taskB =
      .done (newPool 1) ∧
    newPool 0 ≠ newPool 1 ∧
    (runSched initSched [true, false, true, false]).pool =
      some (newPool 1) := by
  refine ⟨rfl, rfl, rfl, ?_, rfl⟩
  intro h
  have := congrArg PoolObj.id h
  simp [newPool] at this

/-- C1 evaluation: `on_message` on any message in the introduction channel
from a non-bot author stores nothing — `database.py` binds no attribute
`save_intro_link`, so the handler's call raises `AttributeError`, the
`except` arm swallows it, and the `introductions` table (hence
`get_intro_ids`) is exactly as before, whatever write a resolved attribute
would have performed. -/
theorem on_message_never_saves_intro (st : List IntroRow) (msg : Message)
    (write : List IntroRow → List IntroRow) :
    on_message st msg write = st ∧
    get_intro_ids (on_message st msg write) msg.author_id =
      get_intro_ids st msg.author_id := by
  have hattr : dbHasAttr "save_intro_link" = false := by decide
  have h : on_message st msg write = st := by
    rw [on_message, hattr]
    simp
  exact ⟨h, by rw [h]⟩

end ProfileBot
